import Mathlib

/-!
Shallow embedding of the core of `src/server.js` (an Express + Mongoose
backend): the authentication middleware, the login route, the owned-resource
delete route for blogs, and the two `POST /api/events/:id/register` handlers
together with the store operations they perform (`findById`,
`findOneAndDelete`, `save`).

Machine conventions:
* Mongo documents are records; a collection is a `List` of documents in
  insertion order; `findById`/`findOne` return the first match.
* `document.save()` after the handler mutated `availableSeats` and pushed one
  element onto `registrations` is modelled by `savePush`, which applies the
  mongoose change-set (set the counter, append the pushed element) to the
  stored document with the same id; it is a no-op when the id is absent.
* JS numbers used as seat counters are modelled by `Int` (they can in
  principle go negative); ids are `Nat`; strings are `String`.
* The `jsonwebtoken` library is modelled by `jwtSign`/`jwtVerify`: a verified
  token is a record of its claims plus the secret it was signed with; an
  unparseable or wrongly-signed token fails with `.malformed`
  (JsonWebTokenError), and a parsed, correctly signed token whose `exp` is at
  or before the current time fails with `.expired` (TokenExpiredError) —
  `jwt.verify` checks the signature before the expiry, and `expiresIn` "1h"
  sets `exp` to `iat + 3600` seconds.
* `bcrypt` hashing is modelled by an injective tagging function; only the
  success/failure of `bcrypt.compare` matters to the claims.
-/

namespace Server

/-! ## Event data model (eventSchema, server.js lines 389-406) -/

/-- Event document: title, description, category, date, time, location,
imageUrl, availableSeats (a JS number, modelled as `Int`), registrations
(array of user-id references, modelled as the strings stored by the two
register handlers), createdAt. -/
structure Event where
  id : Nat
  title : String
  description : String
  category : String
  date : Nat
  time : String
  location : String
  imageUrl : String
  availableSeats : Int
  registrations : List String
  createdAt : Nat
deriving DecidableEq, Repr

/-- Event.findById: first document in the collection with the given id. -/
def findById : List Event → Nat → Option Event
  | [], _ => none
  | e :: es, i => if e.id = i then some e else findById es i

/-- The in-memory mutation both register handlers perform on the fetched
document: set `availableSeats` to `v` and push `r` onto `registrations`. -/
def applyReg (e : Event) (v : Int) (r : String) : Event :=
  { e with availableSeats := v, registrations := e.registrations ++ [r] }

/-- event.save(): mongoose writes the change-set of the modified paths to the
stored document with the same id (set `availableSeats`, `push` onto
`registrations`); no-op if the id is absent from the collection. -/
def savePush : List Event → Nat → Int → String → List Event
  | [], _, _, _ => []
  | e :: es, i, v, r => if e.id = i then applyReg e v r :: es else e :: savePush es i v r

/-- The event created by `POST /api/events` (server.js lines 409-440):
descriptive fields from the request body, `registrations` defaulted to the
empty array, `availableSeats` set to the requested capacity. -/
def newEvent (i : Nat) (title description category : String) (date : Nat)
    (time location imageUrl : String) (capacity : Int) (createdAt : Nat) : Event :=
  { id := i, title := title, description := description, category := category,
    date := date, time := time, location := location, imageUrl := imageUrl,
    availableSeats := capacity, registrations := [], createdAt := createdAt }

/-! ## ObjectId validation (mongoose.Types.ObjectId) -/

/-- Hex-digit test used by ObjectId validation. -/
def isHexDigit (c : Char) : Bool :=
  (Char.toNat '0' ≤ c.toNat && c.toNat ≤ Char.toNat '9') ||
    (Char.toNat 'a' ≤ c.toNat && c.toNat ≤ Char.toNat 'f') ||
    (Char.toNat 'A' ≤ c.toNat && c.toNat ≤ Char.toNat 'F')

/-- mongoose.Types.ObjectId.isValid on a string: a 24-character hex string,
or any 12-character string (12 raw bytes). -/
def isValidObjectId (s : String) : Bool :=
  (s.data.length == 24 && s.data.all isHexDigit) || s.data.length == 12

/-- Lower-casing of one ASCII character (hex normalization). -/
def lowerChar (c : Char) : Char :=
  if 65 ≤ c.toNat ∧ c.toNat ≤ 90 then Char.ofNat (c.toNat + 32) else c

/-- Casting a string to mongoose.Types.ObjectId and storing it: the stored
form is the canonical lower-case hex representation (exact for 24-character
hex input, which is the only form the validated handler stores). -/
def mkObjectId (s : String) : String := ⟨s.data.map lowerChar⟩

/-! ## The two POST /api/events/:id/register handlers -/

/-- Outcome of a register handler, mirroring the `res` calls: the three
explicit rejections, the success response, and the catch branch that answers
500 Error registering for event when a thrown error (such as a mongoose
CastError) is caught. -/
inductive RegResult where
  | notFound
  | noSeats
  | invalidUserId
  | serverError
  | success (e : Event)
deriving DecidableEq, Repr

/-- HTTP status attached to each outcome by the handlers
(404 Event not found, 400 No available seats, 400 Invalid userId,
500 Error registering for event, 200 Registration successful). -/
def regStatus : RegResult → Nat
  | .notFound => 404
  | .noSeats => 400
  | .invalidUserId => 400
  | .serverError => 500
  | .success _ => 200

/-- Whether a register outcome is the success response. -/
def isSuccessReg : RegResult → Bool
  | .success _ => true
  | _ => false

/-- First handler for `POST /api/events/:id/register` (server.js lines
346-373): fetch the event by id (404 if absent), reject if
`availableSeats <= 0`, reject if the body userId is not a valid ObjectId,
otherwise push the cast ObjectId, decrement `availableSeats`, and save. -/
def registerHandler1 (store : List Event) (eid : Nat) (userId : String) :
    RegResult × List Event :=
  match findById store eid with
  | none => (.notFound, store)
  | some event =>
    if event.availableSeats ≤ 0 then (.noSeats, store)
    else if !(isValidObjectId userId) then (.invalidUserId, store)
    else
      (.success (applyReg event (event.availableSeats - 1) (mkObjectId userId)),
        savePush store eid (event.availableSeats - 1) (mkObjectId userId))

/-- Second handler registered for the same route (server.js lines 453-474):
identical fetch and seat check, but no explicit userId validation and no
duplicate check. The push target `registrations` is typed as an array of
ObjectId references by the schema, so mongoose casts the pushed body userId:
an uncastable string raises a CastError that the handler's catch turns into
the 500 Error registering for event response with nothing persisted, while a
castable userId is stored in its cast (canonical hex) form and saved. -/
def registerHandler2 (store : List Event) (eid : Nat) (userId : String) :
    RegResult × List Event :=
  match findById store eid with
  | none => (.notFound, store)
  | some event =>
    if event.availableSeats ≤ 0 then (.noSeats, store)
    else if !(isValidObjectId userId) then (.serverError, store)
    else
      (.success (applyReg event (event.availableSeats - 1) (mkObjectId userId)),
        savePush store eid (event.availableSeats - 1) (mkObjectId userId))

/-! ## Express routing for the duplicated route -/

/-- The handlers registered for `POST /api/events/:id/register`, in
registration order (the first at lines 346-373, the second at lines
453-474). -/
def postEventRegisterHandlers :
    List (List Event → Nat → String → RegResult × List Event) :=
  [registerHandler1, registerHandler2]

/-- Express dispatch for the route: the first registered matching handler
runs; later handlers for the same route run only if an earlier one calls
`next()`, which neither of these handlers ever does (every branch responds),
so dispatch always invokes the head of the registration list. -/
def dispatchPostEventRegister (store : List Event) (eid : Nat) (userId : String) :
    RegResult × List Event :=
  match postEventRegisterHandlers with
  | [] => (.notFound, store)
  | h :: _ => h store eid userId

/-! ## Split read/compute/write phases of the first handler

Each handler is an async function performing two awaited store calls: the
read (`findById`) and the write (`save`). Between the two awaits, other
requests for the same event may run. The phases below factor the handler
into its read snapshot, its local computation, and its write, so that
interleavings of concurrent calls can be expressed. -/

/-- Local computation of the first handler on the snapshot it read. -/
def regCompute (snap : Option Event) (userId : String) : RegResult :=
  match snap with
  | none => .notFound
  | some event =>
    if event.availableSeats ≤ 0 then .noSeats
    else if !(isValidObjectId userId) then .invalidUserId
    else .success (applyReg event (event.availableSeats - 1) (mkObjectId userId))

/-- Write phase: on success, save the change-set computed from the snapshot
(set the counter to the computed value, push the cast userId); on any error
response no write happens. -/
def regWrite (store : List Event) (eid : Nat) (userId : String) :
    RegResult → List Event
  | .success e => savePush store eid e.availableSeats (mkObjectId userId)
  | _ => store

/-- Interleaved execution of two concurrent register calls on the same event
in which both reads complete before either write: request-per-task
concurrency allows both handlers to await `findById` on the same state, then
commit their writes one after the other. -/
def runConcurrent2 (store : List Event) (eid : Nat) (u1 u2 : String) :
    (RegResult × RegResult) × List Event :=
  let r1 := regCompute (findById store eid) u1
  let r2 := regCompute (findById store eid) u2
  ((r1, r2), regWrite (regWrite store eid u1 r1) eid u2 r2)

/-! ## Sequential execution of register calls -/

/-- Run a list of register requests (event id, body userId) one after the
other through the dispatched (first) handler, each seeing the state the
previous one committed. -/
def runRegistrations (store : List Event) : List (Nat × String) → List Event
  | [] => store
  | q :: rest => runRegistrations (registerHandler1 store q.1 q.2).2 rest

/-- Number of requests in the sequence that target event `i` and receive the
success response. -/
def countSuccesses (store : List Event) (i : Nat) : List (Nat × String) → Nat
  | [] => 0
  | q :: rest =>
    (if q.1 = i ∧ isSuccessReg (registerHandler1 store q.1 q.2).1 then 1 else 0)
      + countSuccesses (registerHandler1 store q.1 q.2).2 i rest

/-! ## Token service (jsonwebtoken) and authenticate middleware -/

/-- Claims of a decoded JWT together with the secret it was signed with; a
token string that does not parse as a JWT at all is modelled as
`Option Token = none` where it occurs. -/
structure Token where
  userId : Nat
  iat : Nat
  exp : Nat
  secret : String
deriving DecidableEq, Repr

/-- Signing-key configuration (server.js line 12): the JWT_SECRET
environment variable, defaulting to the literal in the source. -/
def SECRET_KEY : String := "your-secret-key"

/-- The two failure classes of jwt.verify: JsonWebTokenError (unparseable
token or bad signature) and TokenExpiredError. -/
inductive VerifyError where
  | malformed
  | expired
deriving DecidableEq, Repr

/-- jwt.sign(\x7b userId \x7d, key, \x7b expiresIn: "1h" \x7d) at time `now`
(seconds): the token embeds the userId, the issue time and an expiry exactly
3600 seconds later, signed with `key`. -/
def jwtSign (userId : Nat) (key : String) (now : Nat) : Token :=
  { userId := userId, iat := now, exp := now + 3600, secret := key }

/-- jwt.verify(token, key) at time `now` (seconds): an unparseable token or
one signed with a different key throws JsonWebTokenError; otherwise, if the
current time has reached the embedded `exp` the library throws
TokenExpiredError; otherwise the decoded payload is returned. -/
def jwtVerify (tok : Option Token) (key : String) (now : Nat) :
    Except VerifyError Nat :=
  match tok with
  | none => .error .malformed
  | some t =>
    if t.secret ≠ key then .error .malformed
    else if t.exp ≤ now then .error .expired
    else .ok t.userId

/-- How the Authorization header of a request looks to the authenticate
middleware (server.js lines 109-123) after its string handling: absent
header; header whose space-split has no second part; or a second part,
carried as the JWT it parses to (`none` when unparseable). -/
inductive AuthHeader where
  | absent
  | noToken
  | token (t : Option Token)
deriving DecidableEq, Repr

/-- Outcome of the authenticate middleware: reject with a status and message,
or call next() with req.userId set. -/
inductive AuthOutcome where
  | reject (status : Nat) (message : String)
  | proceed (userId : Nat)
deriving DecidableEq, Repr

/-- authenticate (server.js lines 109-123): 401 Authentication required when
the header or the token part is missing; otherwise jwt.verify with
SECRET_KEY, catching every verification error as the same
401 Invalid token response. -/
def authenticate (h : AuthHeader) (now : Nat) : AuthOutcome :=
  match h with
  | .absent => .reject 401 "Authentication required"
  | .noToken => .reject 401 "Authentication required"
  | .token t =>
    match jwtVerify t SECRET_KEY now with
    | .ok uid => .proceed uid
    | .error _ => .reject 401 "Invalid token"

/-- A protected route: Express runs the authenticate middleware first; the
handler (which may read and mutate some store of type `σ`) runs only if the
middleware called next(). On rejection the response is the middleware
response and the store is untouched. -/
def runProtected {σ : Type} (h : AuthHeader) (now : Nat) (store : σ)
    (handler : Nat → σ → (Nat × String) × σ) : (Nat × String) × σ :=
  match authenticate h now with
  | .reject s m => ((s, m), store)
  | .proceed uid => handler uid store

/-! ## Users and the login route -/

/-- User document (userSchema, server.js lines 68-75); `password` holds the
bcrypt hash. -/
structure User where
  id : Nat
  name : String
  email : String
  number : String
  password : String
deriving DecidableEq, Repr

/-- User.findOne(\x7b email \x7d): first user with the given email. -/
def findUserByEmail : List User → String → Option User
  | [], _ => none
  | u :: us, e => if u.email = e then some u else findUserByEmail us e

/-- bcrypt.hash, abstracted to an injective tagging of the password; only
whether bcrypt.compare succeeds matters to the claims. -/
def bcryptHash (pw : String) : String := "bcrypt$" ++ pw

/-- bcrypt.compare(password, hash): true exactly when the hash is the hash
of the password. -/
def bcryptCompare (pw hash : String) : Bool := hash == bcryptHash pw

/-- Response of the login route: status, message, and the token when login
succeeds. -/
structure LoginResponse where
  status : Nat
  message : String
  token : Option Token
deriving DecidableEq, Repr

/-- POST /api/login (server.js lines 182-203): look the user up by email and
answer 401 "Invalid email or password" when absent; compare the password
against the stored hash and answer the identical 401 response on mismatch;
otherwise sign a 1-hour token for the user id and answer 200. -/
def login (users : List User) (email pw : String) (now : Nat) : LoginResponse :=
  match findUserByEmail users email with
  | none => { status := 401, message := "Invalid email or password", token := none }
  | some u =>
    if bcryptCompare pw u.password then
      { status := 200, message := "Login successful",
        token := some (jwtSign u.id SECRET_KEY now) }
    else { status := 401, message := "Invalid email or password", token := none }

/-! ## Blogs and the protected delete route -/

/-- Blog document (blogSchema, server.js lines 77-85); `author` is a nullable
reference to a User id. -/
structure Blog where
  id : Nat
  title : String
  content : String
  image : String
  createdAt : Nat
  author : Option Nat
deriving DecidableEq, Repr

/-- Blog.findOneAndDelete(filter): one store call that atomically finds the
first document satisfying the filter, removes it, and returns it; returns
`none` and leaves the collection unchanged when nothing matches. -/
def findOneAndDelete (p : Blog → Bool) : List Blog → Option Blog × List Blog
  | [] => (none, [])
  | b :: bs =>
    if p b then (some b, bs)
    else
      let r := findOneAndDelete p bs
      (r.1, b :: r.2)

/-- DELETE /api/blogs/:id (server.js lines 279-291, behind authenticate):
one findOneAndDelete call whose filter conjoins the id match and the
ownership match (`author = requester`); 404 Blog not found when it returns
nothing, 200 Blog deleted otherwise. -/
def deleteBlog (store : List Blog) (bid : Nat) (requester : Nat) :
    (Nat × String) × List Blog :=
  match findOneAndDelete (fun b => b.id == bid && b.author == some requester) store with
  | (none, store') => ((404, "Blog not found"), store')
  | (some _, store') => ((200, "Blog deleted"), store')

/-! ## Helper lemmas about the store operations -/

@[simp] theorem applyReg_id (e : Event) (v : Int) (r : String) :
    (applyReg e v r).id = e.id := rfl

@[simp] theorem applyReg_availableSeats (e : Event) (v : Int) (r : String) :
    (applyReg e v r).availableSeats = v := rfl

@[simp] theorem applyReg_registrations (e : Event) (v : Int) (r : String) :
    (applyReg e v r).registrations = e.registrations ++ [r] := rfl

@[simp] theorem applyReg_title (e : Event) (v : Int) (r : String) :
    (applyReg e v r).title = e.title := rfl

@[simp] theorem applyReg_description (e : Event) (v : Int) (r : String) :
    (applyReg e v r).description = e.description := rfl

@[simp] theorem applyReg_category (e : Event) (v : Int) (r : String) :
    (applyReg e v r).category = e.category := rfl

@[simp] theorem applyReg_date (e : Event) (v : Int) (r : String) :
    (applyReg e v r).date = e.date := rfl

@[simp] theorem applyReg_time (e : Event) (v : Int) (r : String) :
    (applyReg e v r).time = e.time := rfl

@[simp] theorem applyReg_location (e : Event) (v : Int) (r : String) :
    (applyReg e v r).location = e.location := rfl

@[simp] theorem applyReg_imageUrl (e : Event) (v : Int) (r : String) :
    (applyReg e v r).imageUrl = e.imageUrl := rfl

@[simp] theorem applyReg_createdAt (e : Event) (v : Int) (r : String) :
    (applyReg e v r).createdAt = e.createdAt := rfl

/-- Saving the change-set for id `i` rewrites the first stored document with
id `i` accordingly. -/
theorem findById_savePush_self (store : List Event) (i : Nat) (v : Int)
    (r : String) (e : Event) (hf : findById store i = some e) :
    findById (savePush store i v r) i = some (applyReg e v r) := by
  induction store with
  | nil => simp [findById] at hf
  | cons a es ih =>
    by_cases ha : a.id = i
    · simp [findById, ha] at hf
      subst hf
      simp [savePush, findById, ha]
    · simp [findById, ha] at hf
      simp [savePush, findById, ha, ih hf]

/-- Saving the change-set for a different id leaves lookups of id `i`
unchanged. -/
theorem findById_savePush_ne (store : List Event) (j : Nat) (v : Int)
    (r : String) (i : Nat) (h : j ≠ i) :
    findById (savePush store j v r) i = findById store i := by
  induction store with
  | nil => simp [savePush]
  | cons a es ih =>
    by_cases ha : a.id = j
    · have hai : a.id ≠ i := by omega
      simp [savePush, findById, ha, hai, h]
    · simp [savePush, findById, ha, ih]

/-- Characterization of the first register handler once the fetch
succeeded. -/
theorem registerHandler1_eq (store : List Event) (i : Nat) (u : String)
    (e₀ : Event) (hf : findById store i = some e₀) :
    registerHandler1 store i u =
      if e₀.availableSeats ≤ 0 then (.noSeats, store)
      else if !(isValidObjectId u) then (.invalidUserId, store)
      else (.success (applyReg e₀ (e₀.availableSeats - 1) (mkObjectId u)),
        savePush store i (e₀.availableSeats - 1) (mkObjectId u)) := by
  simp only [registerHandler1, hf]

/-- A register call targeting one event id never changes what a lookup of a
different id returns. -/
theorem findById_registerHandler1_ne (store : List Event) (eid : Nat)
    (u : String) (i : Nat) (h : eid ≠ i) :
    findById (registerHandler1 store eid u).2 i = findById store i := by
  unfold registerHandler1
  cases hfe : findById store eid with
  | none => simp
  | some e =>
    by_cases hs : e.availableSeats ≤ 0
    · simp [hs]
    · by_cases hv : isValidObjectId u
      · simp [hs, hv, findById_savePush_ne _ _ _ _ _ h]
      · simp [hs, hv]

/-- Sequential capacity invariant of the dispatched register handler: if the
collection holds an event with id `i` and a non-negative seat counter, then
after any sequence of register calls run one after the other, the stored
counter equals the initial counter minus the number of successful
registrations for `i`, and it is still non-negative (hence that number of
successes never exceeds the initial counter). -/
theorem register_seq_invariant (reqs : List (Nat × String)) (store : List Event)
    (i : Nat) (e₀ : Event) (hf : findById store i = some e₀)
    (h0 : 0 ≤ e₀.availableSeats) :
    ∃ e', findById (runRegistrations store reqs) i = some e' ∧
      e'.availableSeats + (countSuccesses store i reqs : Int) = e₀.availableSeats ∧
      0 ≤ e'.availableSeats := by
  induction reqs generalizing store e₀ with
  | nil => exact ⟨e₀, hf, by simp [countSuccesses, runRegistrations], h0⟩
  | cons q rest ih =>
    obtain ⟨eid, u⟩ := q
    by_cases hei : eid = i
    · subst hei
      have hreg := registerHandler1_eq store eid u e₀ hf
      by_cases hs : e₀.availableSeats ≤ 0
      · have hstep : registerHandler1 store eid u = (.noSeats, store) := by
          rw [hreg]; simp [hs]
        obtain ⟨e', h1, h2, h3⟩ := ih store e₀ hf h0
        refine ⟨e', ?_, ?_, h3⟩
        · simpa [runRegistrations, hstep] using h1
        · simpa [countSuccesses, hstep, isSuccessReg] using h2
      · by_cases hv : isValidObjectId u
        · have hstep : registerHandler1 store eid u =
              (.success (applyReg e₀ (e₀.availableSeats - 1) (mkObjectId u)),
                savePush store eid (e₀.availableSeats - 1) (mkObjectId u)) := by
            rw [hreg]; simp [hs, hv]
          have hf' := findById_savePush_self store eid (e₀.availableSeats - 1)
            (mkObjectId u) e₀ hf
          have h0' : 0 ≤ (applyReg e₀ (e₀.availableSeats - 1) (mkObjectId u)).availableSeats := by
            simp; omega
          obtain ⟨e', h1, h2, h3⟩ := ih _ _ hf' h0'
          simp only [applyReg_availableSeats] at h2
          refine ⟨e', ?_, ?_, h3⟩
          · simpa [runRegistrations, hstep] using h1
          · simp [countSuccesses, hstep, isSuccessReg]
            omega
        · have hstep : registerHandler1 store eid u = (.invalidUserId, store) := by
            rw [hreg]; simp [hs, hv]
          obtain ⟨e', h1, h2, h3⟩ := ih store e₀ hf h0
          refine ⟨e', ?_, ?_, h3⟩
          · simpa [runRegistrations, hstep] using h1
          · simpa [countSuccesses, hstep, isSuccessReg] using h2
    · have hf' : findById (registerHandler1 store eid u).2 i = some e₀ :=
        (findById_registerHandler1_ne store eid u i hei).trans hf
      obtain ⟨e', h1, h2, h3⟩ := ih _ e₀ hf' h0
      refine ⟨e', ?_, ?_, h3⟩
      · simpa [runRegistrations] using h1
      · simpa [countSuccesses, hei] using h2

/-- When nothing in the collection satisfies the filter, findOneAndDelete
returns nothing and leaves the collection as it was. -/
theorem findOneAndDelete_none (p : Blog → Bool) (store : List Blog)
    (h : ∀ b ∈ store, p b = false) :
    findOneAndDelete p store = (none, store) := by
  induction store with
  | nil => rfl
  | cons a bs ih =>
    have ha := h a (by simp)
    simp [findOneAndDelete, ha, ih fun b hb => h b (by simp [hb])]

/-! ## Concrete fixtures used by witnesses and counterexamples -/

/-- Event created with capacity 1 and no registrations. -/
def evCap1 : Event := newEvent 0 "t" "d" "workshop" 5 "10:00" "hall" "" 1 0

/-- Event created with capacity 3 and no registrations. -/
def evCap3 : Event := newEvent 0 "t" "d" "workshop" 5 "10:00" "hall" "" 3 0

/-- Event whose availableSeats has reached 0. -/
def evCap0 : Event := newEvent 0 "t" "d" "workshop" 5 "10:00" "hall" "" 0 0

/-- A valid 24-character hex ObjectId string. -/
def uidA : String := "aaaaaaaaaaaaaaaaaaaaaaaa"

/-- Another valid 24-character hex ObjectId string. -/
def uidB : String := "bbbbbbbbbbbbbbbbbbbbbbbb"

/-- A body userId that is not a valid ObjectId. -/
def badUid : String := "xy"

/-- Event of capacity 3 with uidA already registered and 2 seats left. -/
def evReg : Event := applyReg evCap3 2 uidA

/-! ## Claims -/

/-- C1 counterexample: on the event created with capacity 1, the interleaving
of two register calls in which both reads precede both writes produces two
success responses, so the number of successful registrations (2) exceeds the
capacity (1). -/
theorem capacity_invariant_counterexample :
    evCap1.availableSeats = 1 ∧
    isSuccessReg (runConcurrent2 [evCap1] 0 uidA uidB).1.1 = true ∧
    isSuccessReg (runConcurrent2 [evCap1] 0 uidA uidB).1.2 = true := by
  refine ⟨rfl, ?_, ?_⟩ <;> decide

/-- C1 (amended): for every event held in the store with a non-negative seat
counter and every sequence of register calls executed sequentially (each call
completing before the next starts), the stored availableSeats never goes
negative and the number of successful registrations for that event never
exceeds the initial counter. -/
theorem capacity_invariant_sequential (reqs : List (Nat × String))
    (store : List Event) (i : Nat) (e₀ : Event)
    (hf : findById store i = some e₀) (h0 : 0 ≤ e₀.availableSeats) :
    ∃ e', findById (runRegistrations store reqs) i = some e' ∧
      (countSuccesses store i reqs : Int) ≤ e₀.availableSeats ∧
      0 ≤ e'.availableSeats := by
  obtain ⟨e', h1, h2, h3⟩ := register_seq_invariant reqs store i e₀ hf h0
  exact ⟨e', h1, by omega, h3⟩

/-- C1 witness: the sequential invariant evaluated on an event of capacity 2
and three register requests. -/
theorem capacity_invariant_sequential_witness :
    findById [evCap3] 0 = some evCap3 ∧ 0 ≤ evCap3.availableSeats ∧
    ∃ e', findById (runRegistrations [evCap3] [(0, uidA), (0, uidB), (0, uidA)]) 0 = some e' ∧
      (countSuccesses [evCap3] 0 [(0, uidA), (0, uidB), (0, uidA)] : Int) ≤ evCap3.availableSeats ∧
      0 ≤ e'.availableSeats :=
  ⟨by decide, by decide,
    capacity_invariant_sequential [(0, uidA), (0, uidB), (0, uidA)] [evCap3] 0 evCap3
      (by decide) (by decide)⟩

/-- C2 counterexample: the register operation is not atomic — with the event
of capacity 1, the read-read-write-write interleaving of two register calls
makes both succeed, an outcome impossible under either serial order (where
the second call fails with No available seats), so a read-modify-write window
is visible to concurrent callers. -/
theorem register_atomicity_counterexample :
    isSuccessReg (runConcurrent2 [evCap1] 0 uidA uidB).1.1 = true ∧
    isSuccessReg (runConcurrent2 [evCap1] 0 uidA uidB).1.2 = true ∧
    (registerHandler1 (registerHandler1 [evCap1] 0 uidA).2 0 uidB).1 = .noSeats ∧
    (registerHandler1 (registerHandler1 [evCap1] 0 uidB).2 0 uidA).1 = .noSeats := by
  refine ⟨?_, ?_, ?_, ?_⟩ <;> decide

/-- C2 (amended): the register operation is split into a separate read store
call (findById) and a separate write store call (save) with the checks
performed in between on the snapshot, and the resulting read-modify-write
window is visible to concurrent callers: on any event with one remaining
seat, the interleaving in which both calls read before either writes makes
both succeed, while under a serial order the second call fails. -/
theorem register_split_read_write (store : List Event) (eid : Nat) (u : String) :
    (registerHandler1 store eid u =
      (regCompute (findById store eid) u,
        regWrite store eid u (regCompute (findById store eid) u))) ∧
    (∀ e : Event, e.availableSeats = 1 → isValidObjectId u = true →
      isSuccessReg (runConcurrent2 [e] e.id u u).1.1 = true ∧
      isSuccessReg (runConcurrent2 [e] e.id u u).1.2 = true ∧
      (registerHandler1 (registerHandler1 [e] e.id u).2 e.id u).1 = .noSeats) := by
  constructor
  · unfold registerHandler1 regCompute regWrite
    cases findById store eid with
    | none => rfl
    | some e =>
      by_cases hs : e.availableSeats ≤ 0
      · simp [hs]
      · by_cases hv : isValidObjectId u
        · simp [hs, hv]
        · simp [hs, hv]
  · intro e h1 hv
    have hfe : findById [e] e.id = some e := by simp [findById]
    have hc : regCompute (findById [e] e.id) u =
        .success (applyReg e 0 (mkObjectId u)) := by
      rw [hfe]
      simp [regCompute, h1, hv]
    have hw : regWrite [e] e.id u (.success (applyReg e 0 (mkObjectId u))) =
        [applyReg e 0 (mkObjectId u)] := by
      simp [regWrite, savePush]
    refine ⟨?_, ?_, ?_⟩
    · simp [runConcurrent2, hc, isSuccessReg]
    · simp [runConcurrent2, hc, isSuccessReg]
    · have hstep : registerHandler1 [e] e.id u =
          (.success (applyReg e (e.availableSeats - 1) (mkObjectId u)),
            savePush [e] e.id (e.availableSeats - 1) (mkObjectId u)) := by
        rw [registerHandler1_eq [e] e.id u e hfe]
        simp [h1, hv]
      rw [hstep]
      have hfe2 : findById (savePush [e] e.id (e.availableSeats - 1) (mkObjectId u)) e.id =
          some (applyReg e (e.availableSeats - 1) (mkObjectId u)) :=
        findById_savePush_self [e] e.id (e.availableSeats - 1) (mkObjectId u) e hfe
      rw [registerHandler1_eq _ e.id u _ hfe2]
      simp [h1]

/-- C2 witness: the split structure and the visible window evaluated on the
capacity-1 fixture. -/
theorem register_split_read_write_witness :
    (registerHandler1 [evCap1] 0 uidA =
      (regCompute (findById [evCap1] 0) uidA,
        regWrite [evCap1] 0 uidA (regCompute (findById [evCap1] 0) uidA))) ∧
    (evCap1.availableSeats = 1 ∧ isValidObjectId uidA = true ∧
      isSuccessReg (runConcurrent2 [evCap1] evCap1.id uidA uidA).1.1 = true ∧
      isSuccessReg (runConcurrent2 [evCap1] evCap1.id uidA uidA).1.2 = true ∧
      (registerHandler1 (registerHandler1 [evCap1] evCap1.id uidA).2 evCap1.id uidA).1 = .noSeats) :=
  ⟨(register_split_read_write [evCap1] 0 uidA).1,
    by decide, by decide,
    ((register_split_read_write [evCap1] 0 uidA).2 evCap1 (by decide) (by decide)).1,
    ((register_split_read_write [evCap1] 0 uidA).2 evCap1 (by decide) (by decide)).2.1,
    ((register_split_read_write [evCap1] 0 uidA).2 evCap1 (by decide) (by decide)).2.2⟩

/-- C3 counterexample: on the event created with capacity 3, the same
identity registering twice sequentially succeeds both times — the second call
returns the success response rather than an already-registered conflict, the
seat counter drops to 1 rather than staying at 2, and the identity is stored
twice. -/
theorem uniqueness_counterexample :
    isSuccessReg (registerHandler1 (registerHandler1 [evCap3] 0 uidA).2 0 uidA).1 = true ∧
    (findById (registerHandler1 (registerHandler1 [evCap3] 0 uidA).2 0 uidA).2 0).map
      Event.availableSeats = some 1 ∧
    (findById (registerHandler1 (registerHandler1 [evCap3] 0 uidA).2 0 uidA).2 0).map
      Event.registrations = some [uidA, uidA] := by
  refine ⟨?_, ?_, ?_⟩ <;> decide

/-- C3 (amended): the register handler performs no duplicate-registrant
check — whenever the event is found, has seats remaining, and the userId is a
valid ObjectId, the call succeeds and decrements the seat counter even when
that identity is already present in registrations, appending it a second
time; no already-registered conflict response exists in the handler. -/
theorem duplicate_registration_succeeds (store : List Event) (i : Nat)
    (u : String) (e₀ : Event) (hf : findById store i = some e₀)
    (hs : 0 < e₀.availableSeats) (hv : isValidObjectId u = true)
    (hmem : mkObjectId u ∈ e₀.registrations) :
    registerHandler1 store i u =
      (.success (applyReg e₀ (e₀.availableSeats - 1) (mkObjectId u)),
        savePush store i (e₀.availableSeats - 1) (mkObjectId u)) := by
  rw [registerHandler1_eq store i u e₀ hf]
  have hs' : ¬ e₀.availableSeats ≤ 0 := by omega
  simp [hs', hv]

/-- C3 witness: the duplicate registration evaluated on an event that already
holds uidA among its registrants. -/
theorem duplicate_registration_succeeds_witness :
    findById [evReg] 0 = some evReg ∧ 0 < evReg.availableSeats ∧
    isValidObjectId uidA = true ∧ mkObjectId uidA ∈ evReg.registrations ∧
    registerHandler1 [evReg] 0 uidA =
      (.success (applyReg evReg (evReg.availableSeats - 1) (mkObjectId uidA)),
        savePush [evReg] 0 (evReg.availableSeats - 1) (mkObjectId uidA)) :=
  ⟨by decide, by decide, by decide, by decide,
    duplicate_registration_succeeds [evReg] 0 uidA evReg (by decide) (by decide)
      (by decide) (by decide)⟩

/-- C4: a token issued for an identity embeds an expiry exactly 3600 seconds
from issuance; verifying it with the same key returns the identity at any
time strictly before that boundary and  fails with the expired error at or
after it. -/
theorem token_roundtrip (id : Nat) (key : String) (t tv : Nat) :
    (jwtSign id key t).exp = t + 3600 ∧
    (tv < t + 3600 → jwtVerify (some (jwtSign id key t)) key tv = .ok id) ∧
    (t + 3600 ≤ tv → jwtVerify (some (jwtSign id key t)) key tv = .error .expired) := by
  refine ⟨rfl, ?_, ?_⟩ <;> intro h <;> simp [jwtVerify, jwtSign] <;> omega

/-- C4 witness: the round trip evaluated just before and at the expiry
boundary. -/
theorem token_roundtrip_witness :
    (jwtSign 7 SECRET_KEY 100).exp = 100 + 3600 ∧
    (100 + 3599 < 100 + 3600 ∧
      jwtVerify (some (jwtSign 7 SECRET_KEY 100)) SECRET_KEY (100 + 3599) = .ok 7) ∧
    (100 + 3600 ≤ 100 + 3600 ∧
      jwtVerify (some (jwtSign 7 SECRET_KEY 100)) SECRET_KEY (100 + 3600) = .error .expired) :=
  ⟨(token_roundtrip 7 SECRET_KEY 100 (100 + 3599)).1,
    ⟨by omega, (token_roundtrip 7 SECRET_KEY 100 (100 + 3599)).2.1 (by omega)⟩,
    ⟨by omega, (token_roundtrip 7 SECRET_KEY 100 (100 + 3600)).2.2 (by omega)⟩⟩

/-- C5: deleting a blog owned by another identity answers 404 Blog not found
and removes nothing; the response is the one a nonexistent blog id gets, and
the route is a single findOneAndDelete store call whose filter conjoins the
id predicate and the ownership predicate. -/
theorem ownership_isolation (store : List Blog) (bid : Nat) (A B : Nat)
    (hown : ∀ b ∈ store, b.id = bid → b.author = some B) (hne : B ≠ A) :
    deleteBlog store bid A = ((404, "Blog not found"), store) ∧
    (∀ store₂ : List Blog, (∀ b ∈ store₂, b.id ≠ bid) →
      deleteBlog store₂ bid A = ((404, "Blog not found"), store₂)) ∧
    (∀ st : List Blog,
      deleteBlog st bid A =
        match findOneAndDelete (fun b => b.id == bid && b.author == some A) st with
        | (none, st') => ((404, "Blog not found"), st')
        | (some _, st') => ((200, "Blog deleted"), st')) := by
  refine ⟨?_, ?_, fun st => rfl⟩
  · have hp : ∀ b ∈ store, (b.id == bid && b.author == some A) = false := by
      intro b hb
      by_cases hid : b.id = bid
      · have := hown b hb hid
        simp [hid, this, hne]
      · simp [hid]
    simp [deleteBlog, findOneAndDelete_none _ store hp]
  · intro store₂ h₂
    have hp : ∀ b ∈ store₂, (b.id == bid && b.author == some A) = false := by
      intro b hb
      simp [h₂ b hb]
    simp [deleteBlog, findOneAndDelete_none _ store₂ hp]

/-- C5 witness: a delete attempt by identity 1 on a store holding one blog
with the requested id but owned by identity 2. -/
theorem ownership_isolation_witness :
    (∀ b ∈ [Blog.mk 9 "bt" "bc" "" 0 (some 2)], b.id = 9 → b.author = some 2) ∧
    (2 : Nat) ≠ 1 ∧
    deleteBlog [Blog.mk 9 "bt" "bc" "" 0 (some 2)] 9 1 =
      ((404, "Blog not found"), [Blog.mk 9 "bt" "bc" "" 0 (some 2)]) :=
  ⟨by decide, by decide,
    (ownership_isolation [Blog.mk 9 "bt" "bc" "" 0 (some 2)] 9 1 2
      (by decide) (by decide)).1⟩

/-- C6: jwt.verify distinguishes its two failure classes — an unparseable or
wrongly-signed token fails with the malformed error, while a correctly
signed token whose expiry has been reached fails with the distinct expired
error — and whenever verification fails, a protected route rejects the
request with the middleware response before the handler runs, leaving the
store unmutated. -/
theorem verify_distinguishes_and_rejects :
    (∀ now : Nat, jwtVerify none SECRET_KEY now = .error .malformed) ∧
    (∀ (tok : Token) (now : Nat), tok.secret ≠ SECRET_KEY →
      jwtVerify (some tok) SECRET_KEY now = .error .malformed) ∧
    (∀ (tok : Token) (now : Nat), tok.secret = SECRET_KEY → tok.exp ≤ now →
      jwtVerify (some tok) SECRET_KEY now = .error .expired) ∧
    VerifyError.malformed ≠ VerifyError.expired ∧
    (∀ (tok : Option Token) (now : Nat) (store : List Event)
      (handler : Nat → List Event → (Nat × String) × List Event) (e : VerifyError),
      jwtVerify tok SECRET_KEY now = .error e →
      runProtected (.token tok) now store handler = ((401, "Invalid token"), store)) := by
  refine ⟨fun now => rfl, ?_, ?_, by decide, ?_⟩
  · intro tok now h
    simp [jwtVerify, h]
  · intro tok now h1 h2
    simp [jwtVerify, h1, h2]
  · intro tok now store handler e h
    simp [runProtected, authenticate, h]

/-- C6 witness: an unparseable token and an expired token both fail
verification with their respective distinct errors, and both are rejected by
the protected route with the store untouched. -/
theorem verify_distinguishes_and_rejects_witness :
    jwtVerify none SECRET_KEY 5 = .error .malformed ∧
    ((jwtSign 7 SECRET_KEY 0).secret = SECRET_KEY ∧
      (jwtSign 7 SECRET_KEY 0).exp ≤ 3600 ∧
      jwtVerify (some (jwtSign 7 SECRET_KEY 0)) SECRET_KEY 3600 = .error .expired) ∧
    runProtected (.token none) 5 [evCap3]
      (fun _ st => ((200, "ok"), registerHandler1 st 0 uidA |>.2)) =
        ((401, "Invalid token"), [evCap3]) ∧
    runProtected (.token (some (jwtSign 7 SECRET_KEY 0))) 3600 [evCap3]
      (fun _ st => ((200, "ok"), registerHandler1 st 0 uidA |>.2)) =
        ((401, "Invalid token"), [evCap3]) :=
  ⟨verify_distinguishes_and_rejects.1 5,
    ⟨rfl, by decide,
      verify_distinguishes_and_rejects.2.2.1 (jwtSign 7 SECRET_KEY 0) 3600 rfl (by decide)⟩,
    verify_distinguishes_and_rejects.2.2.2.2 none 5 [evCap3] _ .malformed rfl,
    verify_distinguishes_and_rejects.2.2.2.2 (some (jwtSign 7 SECRET_KEY 0)) 3600 [evCap3] _
      .expired (verify_distinguishes_and_rejects.2.2.1 (jwtSign 7 SECRET_KEY 0) 3600 rfl (by decide))⟩

/-- C7 counterexample: the userId validation is not the first step and does
not run at the boundary before the capacity check — on an event whose seat
counter is 0, a request with an invalid userId is answered with No available
seats, not with Invalid userId. -/
theorem validation_first_counterexample :
    isValidObjectId badUid = false ∧
    (registerHandler1 [evCap0] 0 badUid).1 = .noSeats ∧
    (registerHandler1 [evCap0] 0 badUid).1 ≠ .invalidUserId := by
  refine ⟨?_, ?_, ?_⟩ <;> decide

/-- C7 (amended): the register handler validates only that the body userId
is a well-formed ObjectId — it never checks that a user with that id exists —
and it does so after the event fetch and the capacity check: when the event
has no seats the call fails with No available seats regardless of the
userId, and when seats remain and the userId is invalid the call fails with
400 Invalid userId and no event state is mutated. -/
theorem userId_validation_after_capacity (store : List Event) (i : Nat)
    (u : String) (e₀ : Event) (hf : findById store i = some e₀) :
    (e₀.availableSeats ≤ 0 → registerHandler1 store i u = (.noSeats, store)) ∧
    (0 < e₀.availableSeats → isValidObjectId u = false →
      registerHandler1 store i u = (.invalidUserId, store) ∧
      regStatus .invalidUserId = 400) := by
  constructor
  · intro hs
    rw [registerHandler1_eq store i u e₀ hf]
    simp [hs]
  · intro hs hv
    rw [registerHandler1_eq store i u e₀ hf]
    have hs' : ¬ e₀.availableSeats ≤ 0 := by omega
    simp [hs', hv]
    rfl

/-- C7 witness: the ordering and the rejection evaluated on the zero-seat
event and on an event with seats and an invalid userId. -/
theorem userId_validation_after_capacity_witness :
    (findById [evCap0] 0 = some evCap0 ∧ evCap0.availableSeats ≤ 0 ∧
      registerHandler1 [evCap0] 0 badUid = (.noSeats, [evCap0])) ∧
    (findById [evCap3] 0 = some evCap3 ∧ 0 < evCap3.availableSeats ∧
      isValidObjectId badUid = false ∧
      registerHandler1 [evCap3] 0 badUid = (.invalidUserId, [evCap3])) :=
  ⟨⟨by decide, by decide,
      (userId_validation_after_capacity [evCap0] 0 badUid evCap0 (by decide)).1 (by decide)⟩,
    ⟨by decide, by decide, by decide,
      ((userId_validation_after_capacity [evCap3] 0 badUid evCap3 (by decide)).2
        (by decide) (by decide)).1⟩⟩

/-- C8: the two failed-login outcomes — unknown email, and known email with
non-matching password — produce identical responses (401, Invalid email or
password, no token), revealing nothing about whether the account exists. -/
theorem login_indistinguishable (users₁ users₂ : List User)
    (e₁ p₁ e₂ p₂ : String) (n₁ n₂ : Nat) (u : User)
    (h1 : findUserByEmail users₁ e₁ = none)
    (h2 : findUserByEmail users₂ e₂ = some u)
    (h3 : bcryptCompare p₂ u.password = false) :
    login users₁ e₁ p₁ n₁ = login users₂ e₂ p₂ n₂ ∧
    login users₁ e₁ p₁ n₁ =
      { status := 401, message := "Invalid email or password", token := none } := by
  constructor
  · simp [login, h1, h2, h3]
  · simp [login, h1]

/-- C8 witness: the empty user store against a store holding the user with a
different password. -/
theorem login_indistinguishable_witness :
    findUserByEmail [] "a@x.com" = none ∧
    findUserByEmail [User.mk 3 "n" "a@x.com" "04" (bcryptHash "right")] "a@x.com" =
      some (User.mk 3 "n" "a@x.com" "04" (bcryptHash "right")) ∧
    bcryptCompare "wrong" (User.mk 3 "n" "a@x.com" "04" (bcryptHash "right")).password = false ∧
    login [] "a@x.com" "p" 0 =
      login [User.mk 3 "n" "a@x.com" "04" (bcryptHash "right")] "a@x.com" "wrong" 9 :=
  ⟨by decide, by decide, by decide,
    (login_indistinguishable [] [User.mk 3 "n" "a@x.com" "04" (bcryptHash "right")]
      "a@x.com" "p" "a@x.com" "wrong" 0 9 (User.mk 3 "n" "a@x.com" "04" (bcryptHash "right"))
      (by decide) (by decide) (by decide)).1⟩

/-- C9 counterexample: the unreachable second handler does not append the
unvalidated userId — on a request whose userId is not a valid ObjectId the
push onto the ObjectId-typed registrations array raises a CastError, so it
answers 500 with the event unmutated, not success with the raw string
stored. -/
theorem second_handler_raw_append_counterexample :
    registerHandler2 [evCap3] 0 badUid = (.serverError, [evCap3]) ∧
    isSuccessReg (registerHandler2 [evCap3] 0 badUid).1 = false ∧
    regStatus (registerHandler2 [evCap3] 0 badUid).1 = 500 ∧
    (findById (registerHandler2 [evCap3] 0 badUid).2 0).map Event.registrations =
      some [] := by
  refine ⟨?_, ?_, ?_, ?_⟩ <;> decide

/-- C9 (amended): two handlers are registered for
POST /api/events/:id/register and dispatch always runs the first registered
one, which rejects an invalid userId with 400 and no mutation, while the
second is unreachable dead code; the two are not behaviorally equivalent —
the second performs no explicit userId check, and an invalid userId makes it
answer 500 (a caught CastError) with no mutation rather than 400. -/
theorem duplicate_route_first_handler_wins :
    (∀ (store : List Event) (eid : Nat) (u : String),
      dispatchPostEventRegister store eid u = registerHandler1 store eid u) ∧
    postEventRegisterHandlers = [registerHandler1, registerHandler2] ∧
    (registerHandler1 [evCap3] 0 badUid = (.invalidUserId, [evCap3]) ∧
      regStatus .invalidUserId = 400) ∧
    (registerHandler2 [evCap3] 0 badUid = (.serverError, [evCap3]) ∧
      regStatus .serverError = 500) ∧
    registerHandler1 [evCap3] 0 badUid ≠ registerHandler2 [evCap3] 0 badUid := by
  refine ⟨fun store eid u => rfl, rfl, ⟨?_, rfl⟩, ⟨?_, rfl⟩, ?_⟩ <;> decide

/-- C10: a successful register call stores an event with the seat counter
decremented by exactly 1, exactly one element appended to registrations, and
every other field unchanged, so availableSeats plus the number of
registrations is preserved. -/
theorem success_preserves_capacity (store : List Event) (i : Nat) (u : String)
    (e₀ e' : Event) (store' : List Event)
    (hf : findById store i = some e₀)
    (hcall : registerHandler1 store i u = (.success e', store')) :
    e'.availableSeats = e₀.availableSeats - 1 ∧
    e'.registrations = e₀.registrations ++ [mkObjectId u] ∧
    e'.id = e₀.id ∧ e'.title = e₀.title ∧ e'.description = e₀.description ∧
    e'.category = e₀.category ∧ e'.date = e₀.date ∧ e'.time = e₀.time ∧
    e'.location = e₀.location ∧ e'.imageUrl = e₀.imageUrl ∧
    e'.createdAt = e₀.createdAt ∧
    e'.availableSeats + (e'.registrations.length : Int) =
      e₀.availableSeats + (e₀.registrations.length : Int) ∧
    findById store' i = some e' := by
  rw [registerHandler1_eq store i u e₀ hf] at hcall
  by_cases hs : e₀.availableSeats ≤ 0
  · simp [hs] at hcall
  · by_cases hv : isValidObjectId u
    · simp [hs, hv] at hcall
      obtain ⟨he, hst⟩ := hcall
      subst hst
      subst he
      have hfind := findById_savePush_self store i (e₀.availableSeats - 1) (mkObjectId u) e₀ hf
      refine ⟨by simp, by simp, by simp, by simp, by simp, by simp, by simp, by simp,
        by simp, by simp, by simp, by simp, hfind⟩
    · simp [hs, hv] at hcall

/-- C10 witness: the field changes evaluated on a concrete successful
registration. -/
theorem success_preserves_capacity_witness :
    findById [evCap3] 0 = some evCap3 ∧
    registerHandler1 [evCap3] 0 uidA =
      (.success (applyReg evCap3 2 (mkObjectId uidA)), [applyReg evCap3 2 (mkObjectId uidA)]) ∧
    (applyReg evCap3 2 (mkObjectId uidA)).availableSeats = evCap3.availableSeats - 1 ∧
    (applyReg evCap3 2 (mkObjectId uidA)).registrations =
      evCap3.registrations ++ [mkObjectId uidA] ∧
    findById [applyReg evCap3 2 (mkObjectId uidA)] 0 = some (applyReg evCap3 2 (mkObjectId uidA)) :=
  ⟨by decide, by decide,
    (success_preserves_capacity [evCap3] 0 uidA evCap3 (applyReg evCap3 2 (mkObjectId uidA))
      [applyReg evCap3 2 (mkObjectId uidA)] (by decide) (by decide)).1,
    (success_preserves_capacity [evCap3] 0 uidA evCap3 (applyReg evCap3 2 (mkObjectId uidA))
      [applyReg evCap3 2 (mkObjectId uidA)] (by decide) (by decide)).2.1,
    (success_preserves_capacity [evCap3] 0 uidA evCap3 (applyReg evCap3 2 (mkObjectId uidA))
      [applyReg evCap3 2 (mkObjectId uidA)] (by decide) (by decide)).2.2.2.2.2.2.2.2.2.2.2.2⟩

end Server
